import Mathlib

/-!
Storefront script (`src/script.js`): cart, checkout and catalog refresh.

A shallow embedding of the page script.  The module-level `state` object and the
DOM elements the script writes to are gathered in one record (`Page`); every
handler becomes a function from the page before the event to the page after it,
together with the exception (if any) that escapes the handler.  Network calls
are recorded in a request log, and what the server answers is an argument of
the handler that awaits it.

Conventions.
* Product ids and quantities are `Int` / `Nat`: they are stored numbers that
  the script compares and increments by one, taken in the range where a Number
  is exact.
* What `parseInt` returns is a double with an integer value, infinite or `NaN`
  (`IntNumber`): the integer read from the text is rounded to 53 significant
  bits.
* Prices are doubles.  Their type is a parameter `P` that comes with the double
  each value stands for (`PriceValue`); a double is counted in units of
  `2 ^ -1074`, the spacing of the smallest doubles, so that every finite double
  is an integer number of units, and `-0` is identified with `0`.
* Texts that the script parses (`customerIdInputEl.value`,
  `button.dataset.productId`) are lists of characters; names, categories and
  messages are strings.
-/

namespace Storefront

/-! ## Strings: `trim` and digits -/

/-- White space and line terminators of ECMAScript, the characters removed by
`String.prototype.trim` and skipped by `parseInt`. -/
def isWhiteSpace (c : Char) : Bool :=
  let n := c.toNat
  n == 0x09 || n == 0x0A || n == 0x0B || n == 0x0C || n == 0x0D || n == 0x20 ||
  n == 0xA0 || n == 0x1680 || (0x2000 ≤ n && n ≤ 0x200A) || n == 0x2028 ||
  n == 0x2029 || n == 0x202F || n == 0x205F || n == 0x3000 || n == 0xFEFF

/-- The method `String.prototype.trim`: drop white space at both ends. -/
def trim (s : List Char) : List Char :=
  ((s.dropWhile isWhiteSpace).reverse.dropWhile isWhiteSpace).reverse

/-- Value of a character as a digit in the given radix (10 or 16), if it is one. -/
def digitValue (radix : Nat) (c : Char) : Option Nat :=
  let n := c.toNat
  if 48 ≤ n ∧ n ≤ 57 then some (n - 48)
  else if radix = 16 ∧ 97 ≤ n ∧ n ≤ 102 then some (n - 87)
  else if radix = 16 ∧ 65 ≤ n ∧ n ≤ 70 then some (n - 55)
  else none

/-- Number denoted by a run of digits, most significant first; characters that
are not digits count as 0 (callers pass digit runs only). -/
def digitsValue (radix : Nat) (z : List Char) : Nat :=
  z.foldl (fun acc c => acc * radix + (digitValue radix c).getD 0) 0

/-! ## Doubles -/

/-- The integer nearest to `a / b`, the even one on a tie. -/
def roundHalfEven (a b : Nat) : Nat :=
  let q := a / b
  let r := a % b
  if 2 * r < b then q else if b < 2 * r then q + 1 else if q % 2 = 0 then q else q + 1

/-- How many times `f` must be halved to come below `2 ^ 53`, up to `fuel`
halvings. -/
def excessBits : Nat → Nat → Nat
  | 0, _ => 0
  | fuel + 1, f => if f < 2 ^ 53 then 0 else excessBits fuel (f / 2) + 1

/-- Round-to-nearest, ties-to-even, of `a / b` to 53 significant bits: the
quotient is scaled by the power of two that brings it below `2 ^ 53`, rounded to
an integer, and scaled back.  `none` when the result reaches `2 ^ limit`. -/
def round53 (limit a b : Nat) : Option Nat :=
  if 1 <<< limit ≤ a / b then none
  else
    let j := excessBits limit (a / b)
    let m := roundHalfEven a (b <<< j) <<< j
    if m < 1 <<< limit then some m else none

/-- The integer with the given sign flag and magnitude. -/
def applySign (negative : Bool) (v : Nat) : Int :=
  if negative then -(v : Int) else (v : Int)

/-- A Number with an integer value, as `parseInt` returns it: `NaN`, an integer
that is a double, or an infinity. -/
inductive IntNumber where
  | nan
  | finite (value : Int)
  | infinity (negative : Bool)
deriving DecidableEq

/-- The Number nearest to the integer with the given sign and magnitude; the
doubles end below `2 ^ 1024`. -/
def IntNumber.nearest (negative : Bool) (magnitude : Nat) : IntNumber :=
  match round53 1024 magnitude 1 with
  | some m => .finite (applySign negative m)
  | none => .infinity negative

/-- The Number nearest to an integer. -/
def IntNumber.ofInt (k : Int) : IntNumber :=
  IntNumber.nearest (decide (k < 0)) k.natAbs

/-- The test `isNaN(n)`. -/
def IntNumber.isNaN : IntNumber → Bool
  | .nan => true
  | _ => false

/-- The comparison `n <= 0`, false on `NaN`. -/
def IntNumber.leZero : IntNumber → Bool
  | .nan => false
  | .finite value => decide (value ≤ 0)
  | .infinity negative => negative

/-- A double: `NaN`, an infinity, or a finite value counted in units of
`2 ^ -1074`. -/
inductive Double where
  | nan
  | infinity (negative : Bool)
  | finite (units : Int)
deriving DecidableEq

/-- The double nearest to `a / b` units with the given sign; in units the
doubles end below `2 ^ 2098`, that is `2 ^ 1024`. -/
def Double.nearest (negative : Bool) (a b : Nat) : Double :=
  match round53 2098 a b with
  | some m => .finite (applySign negative m)
  | none => .infinity negative

/-- The double nearest to a whole number of units: the rounding every
arithmetic operation ends with. -/
def Double.ofUnits (n : Int) : Double :=
  Double.nearest (decide (n < 0)) n.natAbs 1

/-- The sum `x + y` of two doubles. -/
def Double.add : Double → Double → Double
  | .nan, _ => .nan
  | _, .nan => .nan
  | .infinity a, .infinity b => if a = b then .infinity a else .nan
  | .infinity a, .finite _ => .infinity a
  | .finite _, .infinity b => .infinity b
  | .finite x, .finite y => Double.ofUnits (x + y)

/-- The product `x * q` of a double and a quantity. -/
def Double.mulNat : Double → Nat → Double
  | .nan, _ => .nan
  | .infinity negative, q => if q = 0 then .nan else .infinity negative
  | .finite x, q => Double.ofUnits (x * q)

/-- The count of hundredths nearest to the given number of units, the larger
count on a tie. -/
def nearestHundredths (units : Nat) : Nat :=
  (200 * units + (1 <<< 1074)) / (1 <<< 1075)

/-- A count of hundredths written with two decimals: "12.34" for 1234, "0.05"
for 5. -/
def twoDecimals (n : Nat) : String :=
  toString (n / 100) ++ "." ++ (if n % 100 < 10 then "0" else "") ++ toString (n % 100)

/-- A value of so many units rounded to two decimals and written out, with its
sign. -/
def roundedText (units : Int) : String :=
  (if units < 0 then "-" else "") ++ twoDecimals (nearestHundredths units.natAbs)

/-- What `toFixed(2)` returns. -/
inductive FixedText where
  /-- this text -/
  | text (s : String)
  /-- the text of `String(value)`, in exponent form: the value is `1e21` or more
  in magnitude -/
  | exponential (value : Double)
deriving DecidableEq

/-- The method `Number.prototype.toFixed` with argument 2. -/
def toFixed2 : Double → FixedText
  | .nan => .text "NaN"
  | .infinity negative => .text (if negative then "-Infinity" else "Infinity")
  | .finite units =>
    if 10 ^ 21 * (1 <<< 1074) ≤ units.natAbs then .exponential (.finite units)
    else .text (roundedText units)

/-- Price values: each stands for a double. -/
class PriceValue (P : Type) where
  /-- the double a price value stands for -/
  toDouble : P → Double

instance : PriceValue Double where
  toDouble := id

/-! ## The function `parseInt` -/

/-- Sign step of `parseInt`: a leading `-` or `+` is consumed; the flag tells
whether the sign is negative. -/
def readSign (s : List Char) : Bool × List Char :=
  match s with
  | '-' :: t => (true, t)
  | '+' :: t => (false, t)
  | _ => (false, s)

/-- Radix step of `parseInt` when no radix is passed: a leading `0x` or `0X` is
consumed and selects radix 16, otherwise the radix is 10. -/
def readRadix (s : List Char) : Nat × List Char :=
  match s with
  | '0' :: 'x' :: t => (16, t)
  | '0' :: 'X' :: t => (16, t)
  | _ => (10, s)

/-- The call `parseInt(text)` with no radix argument: skip leading white space,
read an optional sign, an optional `0x` / `0X` marker, then the longest run of
digits; whatever follows is ignored.  The result is the Number nearest to the
integer read (read in full, also past the 20 significant digits from which the
standard lets an engine approximate). -/
def parseInt (text : List Char) : IntNumber :=
  let signed := readSign (text.dropWhile isWhiteSpace)
  let based := readRadix signed.2
  let z := based.2.takeWhile fun c => (digitValue based.1 c).isSome
  if z = [] then .nan else IntNumber.nearest signed.1 (digitsValue based.1 z)

/-! ## Default sort order and sets -/

/-- UTF-16 code units of a string: the keys `Array.prototype.sort` compares when
it is called without a comparator. -/
def utf16 (s : String) : List Nat :=
  s.toList.flatMap fun c =>
    let n := c.toNat
    if n < 0x10000 then [n]
    else [0xD800 + (n - 0x10000) / 0x400, 0xDC00 + (n - 0x10000) % 0x400]

/-- Order used by `sort()` with no comparator: lexicographic on code units. -/
def sortLe (a b : String) : Prop := utf16 a ≤ utf16 b

instance : DecidableRel sortLe := fun a b => by unfold sortLe; infer_instance

/-- The call `[...].sort()` on an array of strings. -/
def sort (xs : List String) : List String := xs.insertionSort sortLe

/-- Elements of `new Set(xs)` in iteration order: each value once, at the place
of its first occurrence. -/
def setValues : List String → List String
  | [] => []
  | x :: xs => x :: (setValues xs).filter (fun y => y ≠ x)

/-! ## Data model -/

/-- Product object of the catalog response, with the property names the script
reads. -/
structure Product (P : Type) where
  ProductID : Int
  Name : String
  Category : String
  StockQty : Int
  Price : P
deriving DecidableEq

/-- Element of `state.cart`, as pushed by `handleAddToCart`. -/
structure CartLine (P : Type) where
  id : Int
  name : String
  price : P
  quantity : Nat
deriving DecidableEq

/-- What `state.allProducts` / `state.filteredProducts` hold.  The script stores
the parsed response body without looking at its shape; the bodies covered here
are the arrays of product objects and the values that are not arrays.  An array
with an element that is not a product object (a `null`, an object whose `Price`
is not a number, ...) has no counterpart, and nothing below is stated for such
a body. -/
inductive ProductsValue (P : Type) where
  /-- an array of product objects -/
  | array (products : List (Product P))
  /-- any JSON value that is not an array (an error object, `null`, a string, ...);
  the flag tells whether its `length` property is 0 -/
  | notArray (lengthIsZero : Bool)
deriving DecidableEq

/-- The module-level `state` object. -/
structure State (P : Type) where
  allProducts : ProductsValue P
  filteredProducts : ProductsValue P
  cart : List (CartLine P)
  selectedCategory : String
deriving DecidableEq

/-- Element of the `cart` array of the order payload. -/
structure OrderLine (P : Type) where
  id : Int
  quantity : Nat
  price : P
deriving DecidableEq

/-- Body of the POST to `/api/place_order`, before `JSON.stringify`. -/
structure OrderPayload (P : Type) where
  customer_id : IntNumber
  cart : List (OrderLine P)
deriving DecidableEq

/-- Network request issued through `fetch`. -/
inductive Request (P : Type) where
  /-- the request `GET /api/products`; the log keeps with it the value of
  `state.cart` at the moment `fetch` is called -/
  | getProducts (cartAtCall : List (CartLine P))
  /-- the request `POST /api/place_order` with the payload as JSON body -/
  | placeOrder (payload : OrderPayload P)
deriving DecidableEq

/-- Exception value. -/
inductive Thrown where
  /-- an `Error` with this message, created and thrown by the script -/
  | scriptError (message : String)
  /-- raised by the runtime (TypeError, SyntaxError, rejected `fetch`); the
  wording of its message is not fixed by the script -/
  | engineError (kind : String)
deriving DecidableEq

/-- Content of `messageBoxEl` after `showMessage(text, isSuccess)`. -/
structure Message where
  text : String
  isSuccess : Bool
deriving DecidableEq

/-- Content of `productListEl`. -/
inductive ProductListHtml (P : Type) where
  /-- one product card per element (no element: blank) -/
  | cards (products : List (Product P))
  /-- the paragraph "No products found in this category." -/
  | emptyMessage
  /-- the paragraph with the connection error and the details of its cause -/
  | errorMessage (cause : Thrown)
deriving DecidableEq

/-- The `state` object, the DOM elements the script writes to, and the log of
requests it has issued (oldest first). -/
structure Page (P : Type) where
  state : State P
  customerIdInputEl : List Char
  messageBoxEl : Option Message
  categoryFilterEl : List String
  productListEl : ProductListHtml P
  cartItemsEl : List (CartLine P)
  cartTotalEl : FixedText
  checkoutButtonDisabled : Bool
  requests : List (Request P)
deriving DecidableEq

/-- Page after a handler has run, and the exception that escaped it, if any. -/
structure Outcome (P : Type) where
  page : Page P
  thrown : Option Thrown
deriving DecidableEq

/-- Answer to `GET /api/products` once the status is 2xx. -/
inductive CatalogBody (P : Type) where
  /-- the promise of `response.json()` rejects -/
  | notJson
  /-- the promise of `response.json()` resolves with this value -/
  | json (value : ProductsValue P)

/-- Answer to `GET /api/products`. -/
inductive CatalogResponse (P : Type) where
  /-- the promise of `fetch` rejects (network unreachable) -/
  | fetchRejects
  /-- a response with this status and body -/
  | response (status : Nat) (body : CatalogBody P)

/-- Answer to `POST /api/place_order`, by the path it makes `handleCheckout`
take. -/
inductive OrderResponse where
  /-- the promise of `fetch` rejects (network unreachable) -/
  | fetchRejects
  /-- the promise of `response.json()` rejects: the body cannot be parsed -/
  | notJson
  /-- the body parses; `success` is the truthiness of the `success` property of
  the result and `message` the text of its `message` property -/
  | json (success : Bool) (message : String)

variable {P : Type}

/-- State as declared at the top of the script, empty DOM elements, no request
issued yet. -/
def initialPage : Page P where
  state := { allProducts := .array [], filteredProducts := .array [], cart := [],
             selectedCategory := "All" }
  customerIdInputEl := []
  messageBoxEl := none
  categoryFilterEl := []
  productListEl := .cards []
  cartItemsEl := []
  cartTotalEl := .text ""
  checkoutButtonDisabled := false
  requests := []

/-! ## Rendering -/

/-- The array `categories` of `renderCategoryFilter`:
`['All', ...new Set(products.map(p => p.Category))].sort()`. -/
def categories (products : List (Product P)) : List String :=
  sort ("All" :: setValues (products.map fun p => p.Category))

/-- Rebuild the filter buttons.  On a value without `map` the element has been
emptied when the TypeError is raised. -/
def renderCategoryFilter (pg : Page P) : Outcome P :=
  match pg.state.allProducts with
  | .array products => ⟨{ pg with categoryFilterEl := categories products }, none⟩
  | .notArray _ => ⟨{ pg with categoryFilterEl := [] }, some (.engineError "TypeError")⟩

/-- Content of `productListEl` for an array of products. -/
def productCards (products : List (Product P)) : ProductListHtml P :=
  if products.length = 0 then .emptyMessage else .cards products

/-- Recompute `state.filteredProducts` and redraw the product list. -/
def renderProducts (pg : Page P) : Outcome P :=
  if pg.state.selectedCategory = "All" then
    match pg.state.allProducts with
    | .array products =>
      ⟨{ pg with state := { pg.state with filteredProducts := .array products },
                 productListEl := productCards products }, none⟩
    | .notArray lengthIsZero =>
      -- the alias is stored and the element reset before `forEach` fails
      ⟨{ pg with state := { pg.state with filteredProducts := .notArray lengthIsZero },
                 productListEl := if lengthIsZero then .emptyMessage else .cards [] },
       some (.engineError "TypeError")⟩
  else
    match pg.state.allProducts with
    | .array products =>
      let filtered := products.filter fun p => p.Category = pg.state.selectedCategory
      ⟨{ pg with state := { pg.state with filteredProducts := .array filtered },
                 productListEl := productCards filtered }, none⟩
    | .notArray _ => ⟨pg, some (.engineError "TypeError")⟩

/-- The statement `total += item.price * item.quantity`: the product is rounded
to a double, then the sum is. -/
def addLine [PriceValue P] (total : Double) (item : CartLine P) : Double :=
  total.add ((PriceValue.toDouble item.price).mulNat item.quantity)

/-- The variable `total` of `renderCart` after the loop over the cart, starting
from 0. -/
def cartTotal [PriceValue P] (cart : List (CartLine P)) : Double :=
  cart.foldl addLine (.finite 0)

/-- Redraw the cart: one element per line, the total (the text after the dollar
sign), checkout button disabled on an empty cart.  The empty-cart message is
visible exactly when the button is disabled. -/
def renderCart [PriceValue P] (pg : Page P) : Page P :=
  { pg with cartItemsEl := pg.state.cart,
            cartTotalEl := toFixed2 (cartTotal pg.state.cart),
            checkoutButtonDisabled := decide (pg.state.cart.length = 0) }

/-- Put a message in the message box (the timer that hides the box five seconds
later is not part of the page record). -/
def showMessage (pg : Page P) (text : String) (isSuccess : Bool) : Page P :=
  { pg with messageBoxEl := some ⟨text, isSuccess⟩ }

/-! ## Event handlers -/

/-- Effect of `existingItem.quantity++` on the first line that has the id. -/
def incrementFirst (productId : IntNumber) : List (CartLine P) → List (CartLine P)
  | [] => []
  | item :: rest =>
    if .finite item.id = productId then { item with quantity := item.quantity + 1 } :: rest
    else item :: incrementFirst productId rest

/-- Click inside the product list.  `button` is `none` when the click is not on
an add-to-cart button, else the text of its `data-product-id`. -/
def handleAddToCart [PriceValue P] (pg : Page P) (button : Option (List Char)) :
    Outcome P :=
  match button with
  | none => ⟨pg, none⟩
  | some productIdText =>
    let productId := parseInt productIdText
    match pg.state.allProducts with
    | .notArray _ => ⟨pg, some (.engineError "TypeError")⟩
    | .array products =>
      match products.find? fun p => IntNumber.finite p.ProductID = productId with
      | none => ⟨pg, none⟩
      | some product =>
        let cart :=
          match pg.state.cart.find? fun item => IntNumber.finite item.id = productId with
          | some _ => incrementFirst productId pg.state.cart
          | none =>
            pg.state.cart ++
              [{ id := product.ProductID, name := product.Name, price := product.Price,
                 quantity := 1 }]
        ⟨renderCart { pg with state := { pg.state with cart := cart } }, none⟩

/-- Click inside the cart.  `button` is `none` when the click is not on a remove
button, else the text of its `data-product-id`. -/
def handleRemoveFromCart [PriceValue P] (pg : Page P) (button : Option (List Char)) :
    Outcome P :=
  match button with
  | none => ⟨pg, none⟩
  | some productIdText =>
    let productId := parseInt productIdText
    let cart := pg.state.cart.filter fun item => IntNumber.finite item.id ≠ productId
    ⟨renderCart { pg with state := { pg.state with cart := cart } }, none⟩

/-- Click inside the category filter; `button` is the `data-category` of the
filter button hit, if any. -/
def handleCategoryFilter (pg : Page P) (button : Option String) : Outcome P :=
  match button with
  | none => ⟨pg, none⟩
  | some category =>
    renderProducts { pg with state := { pg.state with selectedCategory := category } }

/-- The `catch` block of `fetchProducts`: report the error in the product list. -/
def fetchProductsCatch (pg : Page P) (err : Thrown) : Outcome P :=
  ⟨{ pg with productListEl := .errorMessage err }, none⟩

/-- Fetch the catalog and redraw; `r` is what the server answers.  The request
is logged with the cart as it is when `fetch` is called.  On a status outside
200-299 the body text is read and dropped, then the script throws, so the body
of `r` plays no part. -/
def fetchProducts (pg : Page P) (r : CatalogResponse P) : Outcome P :=
  let pg := { pg with requests := pg.requests ++ [.getProducts pg.state.cart] }
  match r with
  | .fetchRejects => fetchProductsCatch pg (.engineError "fetch")
  | .response status body =>
    if ¬ (200 ≤ status ∧ status ≤ 299) then
      fetchProductsCatch pg
        (.scriptError ("API returned status " ++ toString status ++ ". Check DB connection."))
    else
      match body with
      | .notJson => fetchProductsCatch pg (.engineError "SyntaxError")
      | .json value =>
        let pg := { pg with state := { pg.state with allProducts := value } }
        let filter := renderCategoryFilter pg
        match filter.thrown with
        | some err => fetchProductsCatch filter.page err
        | none =>
          let products := renderProducts filter.page
          match products.thrown with
          | some err => fetchProductsCatch products.page err
          | none => ⟨products.page, none⟩

/-- The payload object built by `handleCheckout`. -/
def payload (customerId : IntNumber) (cart : List (CartLine P)) : OrderPayload P :=
  { customer_id := customerId,
    cart := cart.map fun item =>
      { id := item.id, quantity := item.quantity, price := item.price } }

/-- The part of `handleCheckout` that runs before the first `await`: validation,
payload, and the call of `fetch`.  The second component is the payload sent, or
`none` when the handler has returned without a request. -/
def handleCheckoutSubmit (pg : Page P) : Page P × Option (OrderPayload P) :=
  let customerId := trim pg.customerIdInputEl
  if customerId = [] ∨ (parseInt customerId).isNaN = true ∨
      (parseInt customerId).leZero = true then
    (showMessage pg "Please enter a valid Customer ID." false, none)
  else if pg.state.cart.length = 0 then
    (showMessage pg "Your cart is empty." false, none)
  else
    let pg := showMessage pg "Processing Order..." true
    let body := payload (parseInt customerId) pg.state.cart
    ({ pg with requests := pg.requests ++ [.placeOrder body] }, some body)

/-- The part of `handleCheckout` that runs once the order request has settled.
`catalog` is the answer to the refresh started on success. -/
def handleCheckoutSettle (pg : Page P) (order : OrderResponse)
    (catalog : CatalogResponse P) : Outcome P :=
  match order with
  | .fetchRejects | .notJson =>
    ⟨showMessage pg "A network error occurred. Check if the Flask API is running." false,
     none⟩
  | .json true message =>
    let pg := showMessage pg message true
    let pg := { pg with state := { pg.state with cart := [] } }
    let pg := { pg with customerIdInputEl := [] }
    -- not awaited: whatever the refresh does stays inside `fetchProducts`
    ⟨(fetchProducts pg catalog).page, none⟩
  | .json false message => ⟨showMessage pg message false, none⟩

/-- Click on the checkout button, the order request settling before any other
event is handled. -/
def handleCheckout (pg : Page P) (order : OrderResponse)
    (catalog : CatalogResponse P) : Outcome P :=
  match handleCheckoutSubmit pg with
  | (pg, none) => ⟨pg, none⟩
  | (pg, some _) => handleCheckoutSettle pg order catalog

/-! ## Sequences of events -/

/-- What can happen to the page. -/
inductive Event (P : Type) where
  /-- the document has loaded: `fetchProducts(); renderCart();` -/
  | domContentLoaded (catalog : CatalogResponse P)
  /-- the user edits the customer id field -/
  | typeCustomerId (text : List Char)
  /-- click in the product list -/
  | addToCart (button : Option (List Char))
  /-- click in the cart -/
  | removeFromCart (button : Option (List Char))
  /-- click in the category filter -/
  | categoryFilter (button : Option String)
  /-- click on the checkout button, settled at once -/
  | checkout (order : OrderResponse) (catalog : CatalogResponse P)
  /-- click on the checkout button, the request left pending -/
  | checkoutSubmit
  /-- a pending order request settles -/
  | checkoutSettle (order : OrderResponse) (catalog : CatalogResponse P)

/-- Page after one event. -/
def step [PriceValue P] (pg : Page P) : Event P → Page P
  | .domContentLoaded catalog => renderCart (fetchProducts pg catalog).page
  | .typeCustomerId text => { pg with customerIdInputEl := text }
  | .addToCart button => (handleAddToCart pg button).page
  | .removeFromCart button => (handleRemoveFromCart pg button).page
  | .categoryFilter button => (handleCategoryFilter pg button).page
  | .checkout order catalog => (handleCheckout pg order catalog).page
  | .checkoutSubmit => (handleCheckoutSubmit pg).1
  | .checkoutSettle order catalog => (handleCheckoutSettle pg order catalog).page

/-- Page after a sequence of events, oldest first. -/
def run [PriceValue P] (pg : Page P) (events : List (Event P)) : Page P :=
  events.foldl step pg

/-! ## Sample data -/

/-- Decimal number as written in a JSON body, `digits / 10 ^ places`; the price
type of the sample data (9.99 is `⟨999, 2⟩`). -/
structure Decimal where
  digits : Nat
  places : Nat
deriving DecidableEq

/-- The double `JSON.parse` makes of a decimal: the nearest one. -/
instance : PriceValue Decimal where
  toDouble d := Double.nearest false (d.digits <<< 1074) (10 ^ d.places)

/-- A product whose category sorts before "All". -/
def penProduct : Product Decimal :=
  { ProductID := 1, Name := "Pen", Category := "Accessories", StockQty := 10,
    Price := ⟨999, 2⟩ }

/-- A second product. -/
def inkProduct : Product Decimal :=
  { ProductID := 2, Name := "Ink", Category := "Supplies", StockQty := 3,
    Price := ⟨450, 2⟩ }

/-- Page once the document has loaded and the catalog of two products has
arrived: the cart is empty. -/
def shopPage : Page Decimal :=
  run initialPage
    [.domContentLoaded (.response 200 (.json (.array [penProduct, inkProduct])))]

/-- Page after two clicks on the button of product 1 and after the given text
has been typed in the customer id field: the cart is
`[{id: 1, name: "Pen", price: 9.99, quantity: 2}]`. -/
def cartPage (customerId : String) : Page Decimal :=
  run shopPage
    [.addToCart (some "1".toList), .addToCart (some "1".toList),
     .typeCustomerId customerId.toList]

/-- Two products priced 0.3 and 0.075. -/
def gumProduct : Product Decimal :=
  { ProductID := 3, Name := "Gum", Category := "Sweets", StockQty := 40, Price := ⟨3, 1⟩ }

/-- See `gumProduct`. -/
def clipProduct : Product Decimal :=
  { ProductID := 4, Name := "Clip", Category := "Supplies", StockQty := 900,
    Price := ⟨75, 3⟩ }

/-- Page after the catalog of these two products has arrived and each has been
added to the cart once. -/
def sweetsPage : Page Decimal :=
  run initialPage
    [.domContentLoaded (.response 200 (.json (.array [gumProduct, clipProduct]))),
     .addToCart (some "3".toList), .addToCart (some "4".toList)]

/-! ## Vocabulary of the claims -/

/-- Reading of "parses as an integer" that takes the text as a whole: an optional
sign, then one or more decimal digits, and nothing else. -/
def wholeInteger (text : List Char) : Option Int :=
  let signed := readSign text
  if signed.2 ≠ [] ∧ signed.2.all (fun c => (digitValue 10 c).isSome) = true then
    some (applySign signed.1 (digitsValue 10 signed.2))
  else none

/-- Exact value of the sum of `price * quantity` over the lines, in units of
`2 ^ -1074`; `none` when a price is not finite. -/
def exactTotal [PriceValue P] : List (CartLine P) → Option Int
  | [] => some 0
  | item :: rest =>
    match PriceValue.toDouble item.price, exactTotal rest with
    | .finite units, some sum => some (units * item.quantity + sum)
    | _, _ => none

/-- No product and no partial sum of the total is changed by rounding, `acc`
being the sum so far: each of them is a double as it stands. -/
def sumsExactly [PriceValue P] (acc : Int) : List (CartLine P) → Bool
  | [] => true
  | item :: rest =>
    match PriceValue.toDouble item.price with
    | .finite units =>
      Double.ofUnits (units * item.quantity) == .finite (units * item.quantity) &&
      Double.ofUnits (acc + units * item.quantity) ==
        .finite (acc + units * item.quantity) &&
      sumsExactly (acc + units * item.quantity) rest
    | _ => false

/-- The catalog fetch ends before a parsed body is stored: the call rejects, the
status is outside 200-299, or the body is not JSON. -/
def failsBeforeStore : CatalogResponse P → Bool
  | .fetchRejects => true
  | .response _ .notJson => true
  | .response status (.json _) => !(decide (200 ≤ status) && decide (status ≤ 299))


set_option maxRecDepth 100000

/-! ## What the refresh leaves alone -/

/-- Shape of the page after `fetchProducts`: only `allProducts`,
`filteredProducts`, the filter buttons and the product list can differ, one
request is logged, and nothing escapes. -/
theorem fetchProducts_shape (pg : Page P) (r : CatalogResponse P) :
    ∃ all filtered buttons html,
      fetchProducts pg r =
        ⟨{ pg with
            state := { pg.state with allProducts := all, filteredProducts := filtered },
            categoryFilterEl := buttons,
            productListEl := html,
            requests := pg.requests ++ [.getProducts pg.state.cart] }, none⟩ := by
  cases r with
  | fetchRejects => exact ⟨_, _, _, _, rfl⟩
  | response status body =>
    by_cases hok : 200 ≤ status ∧ status ≤ 299
    · cases body with
      | notJson =>
        simp only [fetchProducts, hok, not_true_eq_false, if_false]
        exact ⟨_, _, _, _, rfl⟩
      | json value =>
        cases value with
        | notArray z =>
          simp only [fetchProducts, hok, not_true_eq_false, if_false, renderCategoryFilter]
          exact ⟨_, _, _, _, rfl⟩
        | array products =>
          by_cases hsel : pg.state.selectedCategory = "All"
          · simp only [fetchProducts, hok, not_true_eq_false, if_false, renderCategoryFilter,
              renderProducts, hsel, if_true]
            exact ⟨_, _, _, _, rfl⟩
          · simp only [fetchProducts, hok, not_true_eq_false, if_false, renderCategoryFilter,
              renderProducts, hsel]
            exact ⟨_, _, _, _, rfl⟩
    · simp only [fetchProducts, hok, not_false_eq_true, if_true]
      exact ⟨_, _, _, _, rfl⟩

/-- The refresh never touches the cart, the selected category, the message box
or the customer id field, it logs exactly one request, tagged with the cart it
started from, and nothing escapes it. -/
theorem fetchProducts_frame (pg : Page P) (r : CatalogResponse P) :
    (fetchProducts pg r).page.state.cart = pg.state.cart ∧
    (fetchProducts pg r).page.state.selectedCategory = pg.state.selectedCategory ∧
    (fetchProducts pg r).page.messageBoxEl = pg.messageBoxEl ∧
    (fetchProducts pg r).page.customerIdInputEl = pg.customerIdInputEl ∧
    (fetchProducts pg r).page.requests = pg.requests ++ [.getProducts pg.state.cart] ∧
    (fetchProducts pg r).thrown = none := by
  obtain ⟨all, filtered, buttons, html, h⟩ := fetchProducts_shape pg r
  rw [h]
  exact ⟨rfl, rfl, rfl, rfl, rfl, rfl⟩

theorem renderProducts_state (pg : Page P) :
    (renderProducts pg).page.state.allProducts = pg.state.allProducts ∧
    (renderProducts pg).page.state.cart = pg.state.cart ∧
    (renderProducts pg).page.state.selectedCategory = pg.state.selectedCategory := by
  unfold renderProducts
  by_cases hsel : pg.state.selectedCategory = "All"
  · cases hall : pg.state.allProducts <;> simp [hsel, hall]
  · cases hall : pg.state.allProducts <;> simp [hsel, hall]

/-! ## Checkout: validation and payload -/

theorem parseInt_nil : parseInt [] = .nan := by decide

theorem handleCheckoutSubmit_invalid (pg : Page P)
    (h : (parseInt (trim pg.customerIdInputEl)).isNaN = true ∨
      (parseInt (trim pg.customerIdInputEl)).leZero = true) :
    handleCheckoutSubmit pg =
      (showMessage pg "Please enter a valid Customer ID." false, none) := by
  unfold handleCheckoutSubmit
  simp only
  rw [if_pos (Or.inr h)]

theorem handleCheckoutSubmit_emptyCart (pg : Page P)
    (hnan : (parseInt (trim pg.customerIdInputEl)).isNaN = false)
    (hpos : (parseInt (trim pg.customerIdInputEl)).leZero = false)
    (hcart : pg.state.cart = []) :
    handleCheckoutSubmit pg = (showMessage pg "Your cart is empty." false, none) := by
  have hne : trim pg.customerIdInputEl ≠ [] := by
    intro h0
    rw [h0, parseInt_nil] at hnan
    cases hnan
  unfold handleCheckoutSubmit
  simp only [hne, hnan, hpos, hcart, List.length_nil, Bool.false_eq_true, or_self, if_false,
    if_true]

theorem handleCheckoutSubmit_valid (pg : Page P)
    (hnan : (parseInt (trim pg.customerIdInputEl)).isNaN = false)
    (hpos : (parseInt (trim pg.customerIdInputEl)).leZero = false)
    (hcart : pg.state.cart ≠ []) :
    handleCheckoutSubmit pg =
      ({ showMessage pg "Processing Order..." true with
          requests := pg.requests ++
            [.placeOrder (payload (parseInt (trim pg.customerIdInputEl)) pg.state.cart)] },
       some (payload (parseInt (trim pg.customerIdInputEl)) pg.state.cart)) := by
  have hne : trim pg.customerIdInputEl ≠ [] := by
    intro h0
    rw [h0, parseInt_nil] at hnan
    cases hnan
  have hlen : pg.state.cart.length ≠ 0 := by
    simpa [List.length_eq_zero] using hcart
  unfold handleCheckoutSubmit
  simp only [hne, hnan, hpos, hlen, Bool.false_eq_true, or_self, if_false, showMessage]

theorem handleCheckoutSubmit_state (pg : Page P) :
    (handleCheckoutSubmit pg).1.state = pg.state := by
  unfold handleCheckoutSubmit
  simp only [showMessage]
  split
  · rfl
  · split <;> rfl

theorem handleCheckoutSettle_cart (pg : Page P) (order : OrderResponse)
    (catalog : CatalogResponse P) :
    (handleCheckoutSettle pg order catalog).page.state.cart = pg.state.cart ∨
    (handleCheckoutSettle pg order catalog).page.state.cart = [] := by
  cases order with
  | fetchRejects => left; rfl
  | notJson => left; rfl
  | json success message =>
    cases success with
    | false => left; rfl
    | true =>
      right
      simp only [handleCheckoutSettle]
      rw [(fetchProducts_frame _ catalog).1]

theorem handleCheckout_cart (pg : Page P) (order : OrderResponse)
    (catalog : CatalogResponse P) :
    (handleCheckout pg order catalog).page.state.cart = pg.state.cart ∨
    (handleCheckout pg order catalog).page.state.cart = [] := by
  unfold handleCheckout
  split
  · next pg1 h =>
    left
    have := handleCheckoutSubmit_state pg
    rw [h] at this
    simpa using congrArg State.cart this
  · next pg1 body h =>
    have := handleCheckoutSubmit_state pg
    rw [h] at this
    have hc : pg1.state.cart = pg.state.cart := by simpa using congrArg State.cart this
    rw [← hc]
    exact handleCheckoutSettle_cart pg1 order catalog

/-! ## Rounding small integers, whole-text integers and `parseInt` -/

theorem roundHalfEven_one (n : Nat) : roundHalfEven n 1 = n := by
  simp [roundHalfEven, Nat.mod_one]

theorem excessBits_of_lt (fuel : Nat) {f : Nat} (h : f < 2 ^ 53) : excessBits fuel f = 0 := by
  cases fuel with
  | zero => rfl
  | succ fuel =>
    unfold excessBits
    rw [if_pos h]

theorem two_pow_53_lt (limit : Nat) (h : 53 < limit) {n : Nat} (hn : n < 2 ^ 53) :
    n < 1 <<< limit := by
  rw [Nat.shiftLeft_eq, Nat.one_mul]
  exact lt_trans hn (Nat.pow_lt_pow_right (by decide) h)

/-- Integers up to `2 ^ 53` are doubles: rounding leaves them as they are. -/
theorem round53_small {n : Nat} (h : n ≤ 2 ^ 53) : round53 1024 n 1 = some n := by
  rcases Nat.lt_or_ge n (2 ^ 53) with hlt | hge
  · have h3 : n < 1 <<< 1024 := two_pow_53_lt 1024 (by decide) hlt
    have h1 : ¬ (1 <<< 1024 ≤ n / 1) := by
      rw [Nat.div_one, not_le]
      exact h3
    have h2 : excessBits 1024 (n / 1) = 0 := by
      rw [Nat.div_one]
      exact excessBits_of_lt 1024 hlt
    unfold round53
    simp only [h1, if_false, h2, Nat.shiftLeft_zero, roundHalfEven_one, h3, if_true]
  · have : n = 2 ^ 53 := le_antisymm h hge
    subst this
    decide

theorem IntNumber.ofInt_small {k : Int} (h : k.natAbs ≤ 2 ^ 53) :
    IntNumber.ofInt k = .finite k := by
  unfold IntNumber.ofInt IntNumber.nearest
  rw [round53_small h]
  simp only [applySign]
  by_cases hk : k < 0
  · simp only [hk, decide_True, if_true]
    rw [Int.ofNat_natAbs_of_nonpos (le_of_lt hk), neg_neg]
  · simp only [hk, decide_False, Bool.false_eq_true, if_false]
    rw [Int.natAbs_of_nonneg (not_lt.mp hk)]

theorem IntNumber.nearest_eq_ofInt (negative : Bool) (v : Nat) :
    IntNumber.nearest negative v = IntNumber.ofInt (applySign negative v) := by
  cases negative with
  | false =>
    have hneg : ¬ ((v : Int) < 0) := by omega
    simp [IntNumber.ofInt, applySign, hneg]
  | true =>
    rcases Nat.eq_zero_or_pos v with rfl | hv
    · decide
    · have hneg : (-(v : Int)) < 0 := by omega
      simp [IntNumber.ofInt, applySign, hneg]

theorem digit_not_special {c : Char} (h : (digitValue 10 c).isSome = true) :
    isWhiteSpace c = false ∧ c ≠ 'x' ∧ c ≠ 'X' := by
  have hr : 48 ≤ c.toNat ∧ c.toNat ≤ 57 := by
    unfold digitValue at h
    by_contra hc
    simp [hc] at h
  refine ⟨?_, ?_, ?_⟩
  · unfold isWhiteSpace
    simp only [Bool.or_eq_false_iff, beq_eq_false_iff_ne, Bool.and_eq_false_iff,
      decide_eq_false_iff_not]
    omega
  · rintro rfl
    revert hr
    decide
  · rintro rfl
    revert hr
    decide

theorem readRadix_digits {d : List Char}
    (h : d.all (fun c => (digitValue 10 c).isSome) = true) : readRadix d = (10, d) := by
  unfold readRadix
  split
  · next t =>
    have := (digit_not_special (List.all_eq_true.mp h 'x' (by simp))).2.1
    exact absurd rfl this
  · next t =>
    have := (digit_not_special (List.all_eq_true.mp h 'X' (by simp))).2.2
    exact absurd rfl this
  · rfl

theorem readSign_cons {c : Char} {t : List Char} (hm : c ≠ '-') (hp : c ≠ '+') :
    readSign (c :: t) = (false, c :: t) := by
  unfold readSign
  split
  · next h => exact absurd (List.cons.inj h).1 hm
  · next h => exact absurd (List.cons.inj h).1 hp
  · rfl

/-- On a text that is an integer as a whole, `parseInt` returns the Number
nearest to that integer. -/
theorem parseInt_of_wholeInteger {text : List Char} {k : Int}
    (h : wholeInteger text = some k) : parseInt text = IntNumber.ofInt k := by
  unfold wholeInteger at h
  simp only at h
  split at h
  · next hd =>
    obtain ⟨hne, hall⟩ := hd
    have hdrop : text.dropWhile isWhiteSpace = text := by
      cases text with
      | nil => rfl
      | cons c t =>
        have hc : isWhiteSpace c = false := by
          by_cases hm : c = '-'
          · rw [hm]; decide
          · by_cases hp : c = '+'
            · rw [hp]; decide
            · rw [readSign_cons hm hp] at hall
              exact (digit_not_special (List.all_eq_true.mp hall c (by simp))).1
        simp [List.dropWhile, hc]
    have htake : (readSign text).2.takeWhile (fun c => (digitValue 10 c).isSome) =
        (readSign text).2 := by
      rw [List.takeWhile_eq_self_iff]
      intro c hc
      exact List.all_eq_true.mp hall c hc
    unfold parseInt
    simp only [hdrop, readRadix_digits hall, htake, hne, if_false]
    rw [IntNumber.nearest_eq_ofInt, Option.some.inj h]
  · cases h

/-! ## Lemmas on the cart -/

theorem find_product {products : List (Product P)} {p : Int}
    (h : ∃ prod ∈ products, prod.ProductID = p) :
    ∃ product,
      (products.find? fun q => decide (IntNumber.finite q.ProductID = IntNumber.finite p)) =
        some product ∧
      product.ProductID = p := by
  obtain ⟨prod, hmem, hid⟩ := h
  cases hf : products.find?
      fun q => decide (IntNumber.finite q.ProductID = IntNumber.finite p) with
  | none =>
    have := List.find?_eq_none.mp hf prod hmem
    simp [hid] at this
  | some product =>
    refine ⟨product, rfl, ?_⟩
    have := List.find?_some hf
    simpa using this

theorem find_line_none {cart : List (CartLine P)} {p : Int}
    (h : ∀ item ∈ cart, item.id ≠ p) :
    (cart.find? fun item => decide (IntNumber.finite item.id = IntNumber.finite p)) = none := by
  rw [List.find?_eq_none]
  intro item hmem
  simpa using h item hmem

theorem incrementFirst_append {cart : List (CartLine P)} {p : Int} (line : CartLine P)
    (h : ∀ item ∈ cart, item.id ≠ p) (hid : line.id = p) :
    incrementFirst (.finite p) (cart ++ [line]) =
      cart ++ [{ line with quantity := line.quantity + 1 }] := by
  induction cart with
  | nil => simp [incrementFirst, hid]
  | cons item rest ih =>
    have h1 : item.id ≠ p := h item (List.mem_cons_self _ _)
    have h2 : ∀ x ∈ rest, x.id ≠ p := fun x hx => h x (List.mem_cons_of_mem _ hx)
    simp [incrementFirst, h1, ih h2]

theorem incrementFirst_ids (productId : IntNumber) (cart : List (CartLine P)) :
    (incrementFirst productId cart).map (fun item => item.id) =
      cart.map (fun item => item.id) := by
  induction cart with
  | nil => rfl
  | cons item rest ih =>
    unfold incrementFirst
    split
    · rfl
    · simp [ih]

theorem filter_id_length_le_one {cart : List (CartLine P)}
    (h : (cart.map fun item => item.id).Nodup) (p : Int) :
    (cart.filter fun item => decide (item.id = p)).length ≤ 1 := by
  induction cart with
  | nil => simp
  | cons item rest ih =>
    rw [List.map_cons, List.nodup_cons] at h
    by_cases hid : item.id = p
    · have hnil : rest.filter (fun x => decide (x.id = p)) = [] := by
        rw [List.filter_eq_nil_iff]
        intro x hx hxp
        exact h.1 (List.mem_map.mpr ⟨x, hx, by rw [hid]; simpa using hxp⟩)
      simp [List.filter_cons, hid, hnil]
    · simpa [List.filter_cons, hid] using ih h.2

section Cart

variable [PriceValue P]

theorem handleAddToCart_fresh {pg : Page P} {products : List (Product P)} {p : Int}
    {text : List Char} {product : Product P}
    (hcat : pg.state.allProducts = .array products)
    (hfind : (products.find?
      fun q => decide (IntNumber.finite q.ProductID = IntNumber.finite p)) = some product)
    (hp : product.ProductID = p) (htext : parseInt text = .finite p)
    (hfresh : ∀ item ∈ pg.state.cart, item.id ≠ p) :
    (handleAddToCart pg (some text)).page.state =
      { pg.state with
        cart := pg.state.cart ++ [⟨p, product.Name, product.Price, 1⟩] } := by
  simp only [handleAddToCart, hcat, htext, hfind, find_line_none hfresh, renderCart, hp]

theorem handleAddToCart_again {pg : Page P} {products : List (Product P)} {p : Int}
    {text : List Char} {product : Product P} {cart : List (CartLine P)} {line : CartLine P}
    (hcat : pg.state.allProducts = .array products)
    (hfind : (products.find?
      fun q => decide (IntNumber.finite q.ProductID = IntNumber.finite p)) = some product)
    (htext : parseInt text = .finite p)
    (hcart : pg.state.cart = cart ++ [line]) (hid : line.id = p)
    (hfresh : ∀ item ∈ cart, item.id ≠ p) :
    (handleAddToCart pg (some text)).page.state =
      { pg.state with
        cart := cart ++ [{ line with quantity := line.quantity + 1 }] } := by
  have hsome : ∃ found,
      (pg.state.cart.find?
        fun item => decide (IntNumber.finite item.id = IntNumber.finite p)) = some found := by
    cases hf : pg.state.cart.find?
        fun item => decide (IntNumber.finite item.id = IntNumber.finite p) with
    | some found => exact ⟨found, rfl⟩
    | none =>
      have := List.find?_eq_none.mp hf line (by simp [hcart])
      simp [hid] at this
  obtain ⟨found, hfound⟩ := hsome
  simp only [handleAddToCart, hcat, htext, hfind, hfound, renderCart]
  rw [hcart, incrementFirst_append line hfresh hid]

/-- Cart after `n + 1` clicks on the add-to-cart button of a product that was
not in the cart: the old lines, then one line for the product with quantity
`n + 1`; the rest of `state` is as before. -/
theorem run_addToCart_replicate {products : List (Product P)} {p : Int}
    {text : List Char} {product : Product P}
    (hfind : (products.find?
      fun q => decide (IntNumber.finite q.ProductID = IntNumber.finite p)) = some product)
    (hp : product.ProductID = p) (htext : parseInt text = .finite p) (n : Nat) (pg : Page P)
    (hcat : pg.state.allProducts = .array products)
    (hfresh : ∀ item ∈ pg.state.cart, item.id ≠ p) :
    (run pg (List.replicate (n + 1) (.addToCart (some text)))).state =
      { pg.state with
        cart := pg.state.cart ++ [⟨p, product.Name, product.Price, n + 1⟩] } := by
  induction n with
  | zero =>
    simpa [run, step] using handleAddToCart_fresh hcat hfind hp htext hfresh
  | succ n ih =>
    rw [List.replicate_succ', run, List.foldl_append]
    change (handleAddToCart (run pg _) (some text)).page.state = _
    have hcat2 : (run pg (List.replicate (n + 1) (.addToCart (some text)))).state.allProducts =
        .array products := by rw [ih]; exact hcat
    have hcart2 : (run pg (List.replicate (n + 1) (.addToCart (some text)))).state.cart =
        pg.state.cart ++ [⟨p, product.Name, product.Price, n + 1⟩] := by rw [ih]
    rw [handleAddToCart_again hcat2 hfind htext hcart2 rfl hfresh, ih]

/-! ## The cart holds one line per product id -/

theorem handleAddToCart_nodup (pg : Page P) (button : Option (List Char))
    (h : (pg.state.cart.map fun item => item.id).Nodup) :
    ((handleAddToCart pg button).page.state.cart.map fun item => item.id).Nodup := by
  unfold handleAddToCart
  cases button with
  | none => exact h
  | some text =>
    cases hall : pg.state.allProducts with
    | notArray z => simpa [hall] using h
    | array products =>
      cases hfind : products.find?
          fun p => decide (IntNumber.finite p.ProductID = parseInt text) with
      | none => simpa [hall, hfind] using h
      | some product =>
        have hid : IntNumber.finite product.ProductID = parseInt text := by
          simpa using List.find?_some hfind
        cases hline : pg.state.cart.find?
            fun item => decide (IntNumber.finite item.id = parseInt text) with
        | some found =>
          simp only [hall, hfind, hline, renderCart, incrementFirst_ids]
          exact h
        | none =>
          simp only [hall, hfind, hline, renderCart, List.map_append, List.map_cons,
            List.map_nil]
          rw [List.nodup_append]
          refine ⟨h, List.nodup_singleton _, ?_⟩
          rw [List.disjoint_singleton]
          intro hmem
          obtain ⟨item, hitem, heq⟩ := List.mem_map.mp hmem
          have := List.find?_eq_none.mp hline item hitem
          simp only [decide_eq_true_eq] at this
          exact this (by rw [← hid]; exact congrArg IntNumber.finite heq)

theorem handleRemoveFromCart_nodup (pg : Page P) (button : Option (List Char))
    (h : (pg.state.cart.map fun item => item.id).Nodup) :
    ((handleRemoveFromCart pg button).page.state.cart.map fun item => item.id).Nodup := by
  unfold handleRemoveFromCart
  cases button with
  | none => exact h
  | some text =>
    simp only [renderCart]
    exact h.sublist ((List.filter_sublist _).map _)

theorem step_nodup (pg : Page P) (e : Event P)
    (h : (pg.state.cart.map fun item => item.id).Nodup) :
    ((step pg e).state.cart.map fun item => item.id).Nodup := by
  cases e with
  | domContentLoaded catalog =>
    simp only [step, renderCart]
    rw [(fetchProducts_frame pg catalog).1]
    exact h
  | typeCustomerId text => exact h
  | addToCart button => exact handleAddToCart_nodup pg button h
  | removeFromCart button => exact handleRemoveFromCart_nodup pg button h
  | categoryFilter button =>
    cases button with
    | none => exact h
    | some category =>
      simp only [step, handleCategoryFilter]
      rw [(renderProducts_state _).2.1]
      exact h
  | checkout order catalog =>
    simp only [step]
    rcases handleCheckout_cart pg order catalog with hc | hc <;> rw [hc]
    · exact h
    · exact List.nodup_nil
  | checkoutSubmit =>
    simp only [step]
    rw [handleCheckoutSubmit_state]
    exact h
  | checkoutSettle order catalog =>
    simp only [step]
    rcases handleCheckoutSettle_cart pg order catalog with hc | hc <;> rw [hc]
    · exact h
    · exact List.nodup_nil

theorem run_nodup (events : List (Event P)) (pg : Page P)
    (h : (pg.state.cart.map fun item => item.id).Nodup) :
    ((run pg events).state.cart.map fun item => item.id).Nodup := by
  induction events generalizing pg with
  | nil => exact h
  | cons e rest ih => exact ih (step pg e) (step_nodup pg e h)

/-! ## Claims on the cart -/

/-- C1: when the catalog holds a product with id `p`, the cart has no line for
`p`, and `n ≥ 1`, then after `n` consecutive clicks on an add-to-cart button
whose product id reads `p` the cart has exactly one line with id `p`, and the
quantity of that line is `n`. -/
theorem addToCart_n_times_one_line (pg : Page P) (products : List (Product P)) (p : Int)
    (text : List Char) (n : Nat)
    (hcat : pg.state.allProducts = .array products)
    (hprod : ∃ prod ∈ products, prod.ProductID = p)
    (htext : parseInt text = .finite p)
    (hfresh : ∀ item ∈ pg.state.cart, item.id ≠ p) (hn : 1 ≤ n) :
    ∃ line : CartLine P, line.id = p ∧ line.quantity = n ∧
      (run pg (List.replicate n (.addToCart (some text)))).state.cart.filter
        (fun item => decide (item.id = p)) = [line] := by
  obtain ⟨product, hfind, hp⟩ := find_product hprod
  obtain ⟨m, rfl⟩ : ∃ m, n = m + 1 := ⟨n - 1, by omega⟩
  refine ⟨⟨p, product.Name, product.Price, m + 1⟩, rfl, rfl, ?_⟩
  rw [run_addToCart_replicate hfind hp htext m pg hcat hfresh]
  have hnil : pg.state.cart.filter (fun item => decide (item.id = p)) = [] := by
    rw [List.filter_eq_nil_iff]
    intro item hmem
    simpa using hfresh item hmem
  simp [List.filter_append, hnil]

/-- Instance of C1: three clicks on the button of product 2 with product 1
already in the cart. -/
theorem addToCart_n_times_one_line_witness :
    (cartPage "").state.allProducts = .array [penProduct, inkProduct] ∧
    (cartPage "").state.cart = [⟨1, "Pen", ⟨999, 2⟩, 2⟩] ∧
    parseInt "2".toList = .finite 2 ∧
    (∀ item ∈ (cartPage "").state.cart, item.id ≠ 2) ∧
    ∃ line : CartLine Decimal, line.id = 2 ∧ line.quantity = 3 ∧
      (run (cartPage "") (List.replicate 3 (.addToCart (some "2".toList)))).state.cart.filter
        (fun item => decide (item.id = 2)) = [line] :=
  ⟨by decide, by decide, by decide, by decide,
    addToCart_n_times_one_line (cartPage "") [penProduct, inkProduct] 2 "2".toList 3
      (by decide) ⟨inkProduct, by decide, rfl⟩ (by decide) (by decide) (by decide)⟩

/-- C2: starting from a page whose cart is empty, after any sequence of events
(document load, typing, add-to-cart, remove-from-cart, category and checkout
clicks, order requests settling at once or later, with any catalog and any
server answers) the cart holds at most one line for each product id. -/
theorem cart_at_most_one_line_per_id (pg : Page P) (events : List (Event P))
    (hempty : pg.state.cart = []) (p : Int) :
    ((run pg events).state.cart.filter fun item => decide (item.id = p)).length ≤ 1 :=
  filter_id_length_le_one (run_nodup events pg (by rw [hempty]; exact List.nodup_nil)) p

/-- Instance of C2: a session that loads the catalog, adds product 1 twice and
product 2 once, removes product 2, and checks out with a rejected order. -/
theorem cart_at_most_one_line_per_id_witness :
    (initialPage : Page Decimal).state.cart = [] ∧
    ((run (initialPage : Page Decimal)
        [.domContentLoaded (.response 200 (.json (.array [penProduct, inkProduct]))),
         .addToCart (some "1".toList), .addToCart (some "2".toList),
         .addToCart (some "1".toList), .removeFromCart (some "2".toList),
         .typeCustomerId "7".toList,
         .checkout (.json false "Insufficient stock") .fetchRejects]).state.cart.filter
      fun item => decide (item.id = 1)).length ≤ 1 :=
  ⟨rfl, cart_at_most_one_line_per_id _ _ rfl 1⟩

/-- C10: a click on a remove button whose product id reads `p` leaves in the
cart exactly the lines whose id differs from `p`, unchanged and in their
order; nothing is thrown; and when no line has id `p` the cart is the same as
before. -/
theorem removeFromCart_filters (pg : Page P) (text : List Char) (p : Int)
    (htext : parseInt text = .finite p) :
    (handleRemoveFromCart pg (some text)).page.state.cart =
      pg.state.cart.filter (fun item => decide (item.id ≠ p)) ∧
    (handleRemoveFromCart pg (some text)).thrown = none ∧
    ((∀ item ∈ pg.state.cart, item.id ≠ p) →
      (handleRemoveFromCart pg (some text)).page.state.cart = pg.state.cart) := by
  have hcart : (handleRemoveFromCart pg (some text)).page.state.cart =
      pg.state.cart.filter (fun item => decide (item.id ≠ p)) := by
    simp only [handleRemoveFromCart, renderCart, htext]
    congr 1
    funext item
    simp
  refine ⟨hcart, rfl, fun habsent => ?_⟩
  rw [hcart, List.filter_eq_self]
  intro item hmem
  simpa using habsent item hmem

/-- Instance of C10: removing product 1 from the cart that holds only product 1,
and removing product 2, which is absent. -/
theorem removeFromCart_filters_witness :
    parseInt "2".toList = .finite 2 ∧
    ((handleRemoveFromCart (cartPage "") (some "2".toList)).page.state.cart =
      (cartPage "").state.cart.filter (fun item => decide (item.id ≠ 2)) ∧
    (handleRemoveFromCart (cartPage "") (some "2".toList)).thrown = none ∧
    ((∀ item ∈ (cartPage "").state.cart, item.id ≠ 2) →
      (handleRemoveFromCart (cartPage "") (some "2".toList)).page.state.cart =
        (cartPage "").state.cart)) ∧
    (handleRemoveFromCart (cartPage "") (some "1".toList)).page.state.cart = [] :=
  ⟨by decide, removeFromCart_filters (cartPage "") "2".toList 2 (by decide), by decide⟩

/-! ## Claim on the total -/

theorem cartTotal_exact (cart : List (CartLine P)) (acc : Int)
    (h : sumsExactly acc cart = true) :
    ∃ sum, exactTotal cart = some sum ∧
      cart.foldl addLine (Double.finite acc) = Double.finite (acc + sum) := by
  induction cart generalizing acc with
  | nil => exact ⟨0, rfl, by simp⟩
  | cons item rest ih =>
    unfold sumsExactly at h
    cases hprice : PriceValue.toDouble item.price with
    | nan => simp [hprice] at h
    | infinity negative => simp [hprice] at h
    | finite units =>
      simp only [hprice, Bool.and_eq_true, beq_iff_eq] at h
      obtain ⟨⟨hproduct, hsum⟩, hrest⟩ := h
      obtain ⟨sum, hexact, hfold⟩ := ih (acc + units * item.quantity) hrest
      refine ⟨units * item.quantity + sum, ?_, ?_⟩
      · simp only [exactTotal, hprice, hexact]
      · rw [List.foldl_cons]
        simp only [addLine, hprice, Double.mulNat, hproduct, Double.add, hsum]
        rw [hfold, add_assoc]

/-- C7, as stated, fails.  With one line priced 0.3 and one priced 0.075 the
exact sum of the two prices is below 0.375 and rounds to 0.37, while the sum
the script computes is the double 0.375 and shows as 0.38.  With prices
9007199254740992 and 1 the exact sum ends in ...993.00 and the total shown
ends in ...992.00. -/
theorem cart_total_not_exact :
    sweetsPage.state.cart = [⟨3, "Gum", ⟨3, 1⟩, 1⟩, ⟨4, "Clip", ⟨75, 3⟩, 1⟩] ∧
    (exactTotal sweetsPage.state.cart).map roundedText = some "0.37" ∧
    sweetsPage.cartTotalEl = .text "0.38" ∧
    (exactTotal [(⟨5, "Yacht", ⟨9007199254740992, 0⟩, 1⟩ : CartLine Decimal),
      ⟨6, "Mint", ⟨1, 0⟩, 1⟩]).map roundedText = some "9007199254740993.00" ∧
    toFixed2 (cartTotal [(⟨5, "Yacht", ⟨9007199254740992, 0⟩, 1⟩ : CartLine Decimal),
      ⟨6, "Mint", ⟨1, 0⟩, 1⟩]) = .text "9007199254740992.00" := by
  decide

/-- C7, amended: the total `renderCart` shows is the sum accumulated in doubles,
each product and each partial sum rounded to the nearest double, written once by
`toFixed(2)`; for the empty cart it is 0.00; and when no product and no partial
sum is changed by rounding, the sum is the exact one, so that below `1e21` the
total shown is the exact sum rounded once to two decimals. -/
theorem renderCart_total (pg : Page P) :
    (renderCart pg).cartTotalEl = toFixed2 (cartTotal pg.state.cart) ∧
    (pg.state.cart = [] → (renderCart pg).cartTotalEl = .text "0.00") ∧
    (sumsExactly 0 pg.state.cart = true →
      ∃ sum, exactTotal pg.state.cart = some sum ∧
        cartTotal pg.state.cart = .finite sum ∧
        (sum.natAbs < 10 ^ 21 * (1 <<< 1074) →
          (renderCart pg).cartTotalEl = .text (roundedText sum))) := by
  refine ⟨rfl, ?_, ?_⟩
  · intro hempty
    simp only [renderCart, hempty, cartTotal, List.foldl_nil]
    decide
  · intro hexact
    obtain ⟨sum, hsum, hfold⟩ := cartTotal_exact pg.state.cart 0 hexact
    rw [zero_add] at hfold
    refine ⟨sum, hsum, hfold, fun hsmall => ?_⟩
    simp only [renderCart, cartTotal, hfold, toFixed2, not_le.mpr hsmall, if_false]

/-- Instance of amended C7: the cart `[{price: 9.99, quantity: 2}]`, whose
product 19.98 is a double, shows 19.98; and the empty cart shows 0.00. -/
theorem renderCart_total_witness :
    sumsExactly 0 (cartPage "").state.cart = true ∧
    (∃ sum, exactTotal (cartPage "").state.cart = some sum ∧
      cartTotal (cartPage "").state.cart = .finite sum ∧
      (sum.natAbs < 10 ^ 21 * (1 <<< 1074) →
        (renderCart (cartPage "")).cartTotalEl = .text (roundedText sum))) ∧
    (renderCart (cartPage "")).cartTotalEl = .text "19.98" ∧
    (shopPage.state.cart = [] → (renderCart shopPage).cartTotalEl = .text "0.00") ∧
    shopPage.cartTotalEl = .text "0.00" :=
  ⟨by decide, (renderCart_total (cartPage "")).2.2 (by decide), by decide,
    (renderCart_total shopPage).2.1, by decide⟩

end Cart

/-! ## Claims on checkout -/

/-- C3, as stated, fails: with "7abc" (or "3.9") in the customer id field and a
non-empty cart, the text is not an integer as a whole, yet the checkout posts
the order, with customer id 7 (or 3). -/
theorem checkout_trailing_text_accepted :
    wholeInteger (trim (cartPage "7abc").customerIdInputEl) = none ∧
    (handleCheckout (cartPage "7abc") .fetchRejects .fetchRejects).page.requests =
      (cartPage "7abc").requests ++ [.placeOrder ⟨.finite 7, [⟨1, 2, ⟨999, 2⟩⟩]⟩] ∧
    wholeInteger (trim (cartPage "3.9").customerIdInputEl) = none ∧
    (handleCheckout (cartPage "3.9") .fetchRejects .fetchRejects).page.requests =
      (cartPage "3.9").requests ++ [.placeOrder ⟨.finite 3, [⟨1, 2, ⟨999, 2⟩⟩]⟩] := by
  decide

/-- C3, amended: when `parseInt` of the trimmed customer id text is `NaN` or is
not greater than 0, or when the cart is empty, the checkout only shows a
validation message flagged as an error: no request is issued, nothing is
thrown, and the cart, like the rest of the page, is unchanged. -/
theorem checkout_rejected_locally (pg : Page P) (order : OrderResponse)
    (catalog : CatalogResponse P)
    (h : ((parseInt (trim pg.customerIdInputEl)).isNaN = true ∨
        (parseInt (trim pg.customerIdInputEl)).leZero = true) ∨
      pg.state.cart = []) :
    ∃ text, (text = "Please enter a valid Customer ID." ∨ text = "Your cart is empty.") ∧
      handleCheckout pg order catalog = ⟨{ pg with messageBoxEl := some ⟨text, false⟩ }, none⟩ ∧
      (handleCheckout pg order catalog).page.requests = pg.requests ∧
      (handleCheckout pg order catalog).page.state.cart = pg.state.cart := by
  by_cases hv : (parseInt (trim pg.customerIdInputEl)).isNaN = true ∨
      (parseInt (trim pg.customerIdInputEl)).leZero = true
  · refine ⟨"Please enter a valid Customer ID.", Or.inl rfl, ?_⟩
    simp only [handleCheckout, handleCheckoutSubmit_invalid pg hv, showMessage, and_self]
  · have hcart : pg.state.cart = [] := h.resolve_left hv
    have hnan : (parseInt (trim pg.customerIdInputEl)).isNaN = false := by
      cases hb : (parseInt (trim pg.customerIdInputEl)).isNaN with
      | false => rfl
      | true => exact absurd (Or.inl hb) hv
    have hpos : (parseInt (trim pg.customerIdInputEl)).leZero = false := by
      cases hb : (parseInt (trim pg.customerIdInputEl)).leZero with
      | false => rfl
      | true => exact absurd (Or.inr hb) hv
    refine ⟨"Your cart is empty.", Or.inr rfl, ?_⟩
    simp only [handleCheckout, handleCheckoutSubmit_emptyCart pg hnan hpos hcart, showMessage,
      and_self]

/-- Instances of amended C3: the texts "0", "-5", "abc" and "" with a non-empty
cart, and a valid id with an empty cart. -/
theorem checkout_rejected_locally_witness :
    (((parseInt (trim (cartPage "-5").customerIdInputEl)).isNaN = true ∨
        (parseInt (trim (cartPage "-5").customerIdInputEl)).leZero = true) ∨
      (cartPage "-5").state.cart = []) ∧
    (∃ text, (text = "Please enter a valid Customer ID." ∨ text = "Your cart is empty.") ∧
      handleCheckout (cartPage "-5") .fetchRejects .fetchRejects =
        ⟨{ cartPage "-5" with messageBoxEl := some ⟨text, false⟩ }, none⟩ ∧
      (handleCheckout (cartPage "-5") .fetchRejects .fetchRejects).page.requests =
        (cartPage "-5").requests ∧
      (handleCheckout (cartPage "-5") .fetchRejects .fetchRejects).page.state.cart =
        (cartPage "-5").state.cart) ∧
    (handleCheckout (cartPage "0") (.json true "") .fetchRejects).page.requests =
      (cartPage "0").requests ∧
    (handleCheckout (cartPage "abc") (.json true "") .fetchRejects).page.requests =
      (cartPage "abc").requests ∧
    (handleCheckout (cartPage "") (.json true "") .fetchRejects).page.requests =
      (cartPage "").requests ∧
    handleCheckout (step shopPage (.typeCustomerId "7".toList)) (.json true "") .fetchRejects =
      ⟨{ step shopPage (.typeCustomerId "7".toList) with
          messageBoxEl := some ⟨"Your cart is empty.", false⟩ }, none⟩ :=
  ⟨Or.inl (Or.inr (by decide)),
    checkout_rejected_locally (cartPage "-5") .fetchRejects .fetchRejects
      (Or.inl (Or.inr (by decide))),
    by decide, by decide, by decide, by decide⟩

/-- C4, as stated, fails: "9007199254740993" passes validation and denotes
`2 ^ 53 + 1`, which is not a double; the payload carries 9007199254740992. -/
theorem checkout_large_id_rounded :
    wholeInteger (trim (cartPage "9007199254740993").customerIdInputEl) =
      some 9007199254740993 ∧
    (cartPage "9007199254740993").state.cart ≠ [] ∧
    (handleCheckoutSubmit (cartPage "9007199254740993")).2 =
      some ⟨.finite 9007199254740992, [⟨1, 2, ⟨999, 2⟩⟩]⟩ := by
  decide

/-- C4, amended: with a non-empty cart and a customer id text that passes
validation, the checkout posts a payload whose `customer_id` is the Number
`parseInt` returns for the trimmed text.  When the text is an integer as a
whole, that Number is the double nearest to the integer, and the integer itself
when it is at most `2 ^ 53` in magnitude.  The `cart` of the payload lists, line
by line and in the order of the cart, the id, the quantity and the price of each
cart line. -/
theorem checkout_payload (pg : Page P)
    (hnan : (parseInt (trim pg.customerIdInputEl)).isNaN = false)
    (hpos : (parseInt (trim pg.customerIdInputEl)).leZero = false)
    (hcart : pg.state.cart ≠ []) :
    ∃ body : OrderPayload P,
      (handleCheckoutSubmit pg).2 = some body ∧
      (handleCheckoutSubmit pg).1.requests = pg.requests ++ [.placeOrder body] ∧
      body.customer_id = parseInt (trim pg.customerIdInputEl) ∧
      (∀ k, wholeInteger (trim pg.customerIdInputEl) = some k →
        body.customer_id = IntNumber.ofInt k ∧
        (k.natAbs ≤ 2 ^ 53 → body.customer_id = .finite k)) ∧
      body.cart = pg.state.cart.map (fun item => ⟨item.id, item.quantity, item.price⟩) := by
  refine ⟨payload (parseInt (trim pg.customerIdInputEl)) pg.state.cart, ?_, ?_, rfl, ?_, rfl⟩
  · rw [handleCheckoutSubmit_valid pg hnan hpos hcart]
  · rw [handleCheckoutSubmit_valid pg hnan hpos hcart]
  · intro k hk
    have hparse : parseInt (trim pg.customerIdInputEl) = IntNumber.ofInt k :=
      parseInt_of_wholeInteger hk
    refine ⟨hparse, fun hsmall => ?_⟩
    show parseInt (trim pg.customerIdInputEl) = IntNumber.finite k
    rw [hparse, IntNumber.ofInt_small hsmall]

/-- Instance of amended C4: the cart `[{id: 1, price: 9.99, quantity: 2}]` with
customer id "7" gives `{customer_id: 7, cart: [{id: 1, quantity: 2, price: 9.99}]}`. -/
theorem checkout_payload_witness :
    (parseInt (trim (cartPage "7").customerIdInputEl)).isNaN = false ∧
    (parseInt (trim (cartPage "7").customerIdInputEl)).leZero = false ∧
    (cartPage "7").state.cart ≠ [] ∧
    (∃ body : OrderPayload Decimal,
      (handleCheckoutSubmit (cartPage "7")).2 = some body ∧
      (handleCheckoutSubmit (cartPage "7")).1.requests =
        (cartPage "7").requests ++ [.placeOrder body] ∧
      body.customer_id = parseInt (trim (cartPage "7").customerIdInputEl) ∧
      (∀ k, wholeInteger (trim (cartPage "7").customerIdInputEl) = some k →
        body.customer_id = IntNumber.ofInt k ∧
        (k.natAbs ≤ 2 ^ 53 → body.customer_id = .finite k)) ∧
      body.cart =
        (cartPage "7").state.cart.map (fun item => ⟨item.id, item.quantity, item.price⟩)) ∧
    wholeInteger (trim (cartPage "7").customerIdInputEl) = some 7 ∧
    (handleCheckoutSubmit (cartPage "7")).2 = some ⟨.finite 7, [⟨1, 2, ⟨999, 2⟩⟩]⟩ :=
  ⟨by decide, by decide, by decide,
    checkout_payload (cartPage "7") (by decide) (by decide) (by decide), by decide, by decide⟩

/-- C5: when a checkout passes validation and the server answers with success
and message `m`, then, whatever the answer to the catalog refresh, the cart is
empty, the customer id field is cleared, the message shown is `m` flagged as
success, and nothing is thrown.  The requests issued are the order followed by
exactly one catalog fetch, and the cart recorded at the call of that fetch is
the empty cart: the refresh starts after the cart has been cleared. -/
theorem checkout_success (pg : Page P) (m : String) (catalog : CatalogResponse P)
    (hnan : (parseInt (trim pg.customerIdInputEl)).isNaN = false)
    (hpos : (parseInt (trim pg.customerIdInputEl)).leZero = false)
    (hcart : pg.state.cart ≠ []) :
    (handleCheckout pg (.json true m) catalog).page.state.cart = [] ∧
    (handleCheckout pg (.json true m) catalog).page.customerIdInputEl = [] ∧
    (handleCheckout pg (.json true m) catalog).page.messageBoxEl = some ⟨m, true⟩ ∧
    (handleCheckout pg (.json true m) catalog).thrown = none ∧
    (handleCheckout pg (.json true m) catalog).page.requests =
      pg.requests ++
        [.placeOrder (payload (parseInt (trim pg.customerIdInputEl)) pg.state.cart),
         .getProducts []] := by
  have hrun : handleCheckout pg (.json true m) catalog =
      ⟨(fetchProducts
          { pg with
            state := { pg.state with cart := [] },
            customerIdInputEl := [],
            messageBoxEl := some ⟨m, true⟩,
            requests := pg.requests ++
              [.placeOrder (payload (parseInt (trim pg.customerIdInputEl)) pg.state.cart)] }
          catalog).page, none⟩ := by
    simp only [handleCheckout, handleCheckoutSubmit_valid pg hnan hpos hcart,
      handleCheckoutSettle, showMessage]
  rw [hrun]
  refine ⟨?_, ?_, ?_, rfl, ?_⟩
  · rw [(fetchProducts_frame _ catalog).1]
  · rw [(fetchProducts_frame _ catalog).2.2.2.1]
  · rw [(fetchProducts_frame _ catalog).2.2.1]
  · rw [(fetchProducts_frame _ catalog).2.2.2.2.1]
    simp

/-- Instance of C5: the order "Order #42 placed" for customer 7, with a catalog
refresh that fails. -/
theorem checkout_success_witness :
    (parseInt (trim (cartPage "7").customerIdInputEl)).isNaN = false ∧
    (parseInt (trim (cartPage "7").customerIdInputEl)).leZero = false ∧
    (cartPage "7").state.cart ≠ [] ∧
    ((handleCheckout (cartPage "7") (.json true "Order #42 placed")
        (.response 500 .notJson)).page.state.cart = [] ∧
      (handleCheckout (cartPage "7") (.json true "Order #42 placed")
        (.response 500 .notJson)).page.customerIdInputEl = [] ∧
      (handleCheckout (cartPage "7") (.json true "Order #42 placed")
        (.response 500 .notJson)).page.messageBoxEl = some ⟨"Order #42 placed", true⟩ ∧
      (handleCheckout (cartPage "7") (.json true "Order #42 placed")
        (.response 500 .notJson)).thrown = none ∧
      (handleCheckout (cartPage "7") (.json true "Order #42 placed")
        (.response 500 .notJson)).page.requests =
        (cartPage "7").requests ++
          [.placeOrder
            (payload (parseInt (trim (cartPage "7").customerIdInputEl))
              (cartPage "7").state.cart),
           .getProducts []]) ∧
    (handleCheckout (cartPage "7") (.json true "Order #42 placed")
      (.response 500 .notJson)).page.requests =
      [.getProducts [], .placeOrder ⟨.finite 7, [⟨1, 2, ⟨999, 2⟩⟩]⟩, .getProducts []] :=
  ⟨by decide, by decide, by decide,
    checkout_success (cartPage "7") "Order #42 placed" (.response 500 .notJson) (by decide)
      (by decide) (by decide),
    by decide⟩

/-- C6: when a checkout passes validation and the order request fails in
transport (the call rejects or the body cannot be parsed) or is answered with
`success: false` and message `m`, the page differs from the one before only in
the message box and in the request log: `state` (cart, products, selected
category) is as before, the only request issued is the order, so no catalog
refresh is triggered, and the message shown is flagged as an error and is `m`
for a rejected order and the generic network-error text for a transport
failure. -/
theorem checkout_failure_atomic (pg : Page P) (order : OrderResponse)
    (catalog : CatalogResponse P)
    (hnan : (parseInt (trim pg.customerIdInputEl)).isNaN = false)
    (hpos : (parseInt (trim pg.customerIdInputEl)).leZero = false)
    (hcart : pg.state.cart ≠ [])
    (hfail : order = .fetchRejects ∨ order = .notJson ∨ ∃ m, order = .json false m) :
    ∃ text,
      handleCheckout pg order catalog =
        ⟨{ pg with
            messageBoxEl := some ⟨text, false⟩,
            requests := pg.requests ++
              [.placeOrder (payload (parseInt (trim pg.customerIdInputEl)) pg.state.cart)] },
         none⟩ ∧
      (handleCheckout pg order catalog).page.state = pg.state ∧
      (handleCheckout pg order catalog).page.requests =
        pg.requests ++
          [.placeOrder (payload (parseInt (trim pg.customerIdInputEl)) pg.state.cart)] ∧
      (∀ m, order = .json false m → text = m) ∧
      (order = .fetchRejects ∨ order = .notJson →
        text = "A network error occurred. Check if the Flask API is running.") := by
  have hsub := handleCheckoutSubmit_valid pg hnan hpos hcart
  rcases hfail with rfl | rfl | ⟨m, rfl⟩
  · refine ⟨"A network error occurred. Check if the Flask API is running.", ?_, ?_, ?_,
      (fun m hm => nomatch hm), (fun _ => rfl)⟩ <;>
    simp only [handleCheckout, hsub, handleCheckoutSettle, showMessage]
  · refine ⟨"A network error occurred. Check if the Flask API is running.", ?_, ?_, ?_,
      (fun m hm => nomatch hm), (fun _ => rfl)⟩ <;>
    simp only [handleCheckout, hsub, handleCheckoutSettle, showMessage]
  · refine ⟨m, ?_, ?_, ?_, (fun m0 hm => (OrderResponse.json.inj hm).2),
      (fun h => h.elim (fun h => nomatch h) (fun h => nomatch h))⟩ <;>
    simp only [handleCheckout, hsub, handleCheckoutSettle, showMessage]

/-- Instance of C6: the order of customer 7 is answered "Insufficient stock";
the cart still holds `[{id: 1, price: 9.99, quantity: 2}]`. -/
theorem checkout_failure_atomic_witness :
    (parseInt (trim (cartPage "7").customerIdInputEl)).isNaN = false ∧
    (parseInt (trim (cartPage "7").customerIdInputEl)).leZero = false ∧
    (cartPage "7").state.cart ≠ [] ∧
    (∃ text,
      handleCheckout (cartPage "7") (.json false "Insufficient stock") .fetchRejects =
        ⟨{ cartPage "7" with
            messageBoxEl := some ⟨text, false⟩,
            requests := (cartPage "7").requests ++
              [.placeOrder
                (payload (parseInt (trim (cartPage "7").customerIdInputEl))
                  (cartPage "7").state.cart)] },
         none⟩ ∧
      (handleCheckout (cartPage "7") (.json false "Insufficient stock")
        .fetchRejects).page.state = (cartPage "7").state ∧
      (handleCheckout (cartPage "7") (.json false "Insufficient stock")
        .fetchRejects).page.requests =
        (cartPage "7").requests ++
          [.placeOrder
            (payload (parseInt (trim (cartPage "7").customerIdInputEl))
              (cartPage "7").state.cart)] ∧
      (∀ m, OrderResponse.json false "Insufficient stock" = .json false m → text = m) ∧
      (OrderResponse.json false "Insufficient stock" = .fetchRejects ∨
        OrderResponse.json false "Insufficient stock" = .notJson →
        text = "A network error occurred. Check if the Flask API is running.")) ∧
    (handleCheckout (cartPage "7") (.json false "Insufficient stock")
      .fetchRejects).page.state.cart = [⟨1, "Pen", ⟨999, 2⟩, 2⟩] ∧
    (handleCheckout (cartPage "7") (.json false "Insufficient stock")
      .fetchRejects).page.messageBoxEl = some ⟨"Insufficient stock", false⟩ :=
  ⟨by decide, by decide, by decide,
    checkout_failure_atomic (cartPage "7") (.json false "Insufficient stock") .fetchRejects
      (by decide) (by decide) (by decide) (Or.inr (Or.inr ⟨_, rfl⟩)),
    by decide, by decide⟩

/-! ## Claims on the catalog -/

/-- C8 at `[{Category: "Accessories"}, {Category: "Supplies"}]`: the list the
filter is built from is `["Accessories", "All", "Supplies"]`, so "All" is not
its first element. -/
theorem categories_all_not_first :
    categories [penProduct, inkProduct] = ["Accessories", "All", "Supplies"] ∧
    (categories [penProduct, inkProduct]).head? ≠ some "All" ∧
    (renderCategoryFilter shopPage).page.categoryFilterEl =
      ["Accessories", "All", "Supplies"] ∧
    shopPage.categoryFilterEl = ["Accessories", "All", "Supplies"] := by
  decide

/-- C9, as stated, fails: a 2xx answer whose body is valid JSON but not an array
(an error object, say) makes the refresh end in its error report, and by then
the product list has been replaced by that value. -/
theorem fetchProducts_non_array_overwrites :
    (fetchProducts shopPage (.response 200 (.json (.notArray false)))).page.productListEl =
      .errorMessage (.engineError "TypeError") ∧
    (fetchProducts shopPage (.response 200 (.json (.notArray false)))).page.state.allProducts =
      .notArray false ∧
    (fetchProducts shopPage (.response 200 (.json (.notArray false)))).page.state.allProducts ≠
      shopPage.state.allProducts := by
  decide

/-- C9, amended: when the catalog fetch fails because the call rejects, the
status is not 2xx, or the body is not JSON, the whole `state` (product list and
selected category included) is as before, nothing is thrown, and the product
list element shows the error.  When a 2xx body is valid JSON but not an array,
the parsed value replaces the product list; the rest of `state` (selected
category included) is as before, nothing is thrown, and the product list
element shows the error. -/
theorem fetchProducts_failure_keeps_state (pg : Page P) :
    (∀ r : CatalogResponse P, failsBeforeStore r = true →
      (fetchProducts pg r).page.state = pg.state ∧
      (fetchProducts pg r).page.state.allProducts = pg.state.allProducts ∧
      (fetchProducts pg r).page.state.selectedCategory = pg.state.selectedCategory ∧
      (fetchProducts pg r).thrown = none ∧
      ∃ cause, (fetchProducts pg r).page.productListEl = .errorMessage cause) ∧
    (∀ (status : Nat) (lengthIsZero : Bool), 200 ≤ status → status ≤ 299 →
      (fetchProducts pg (.response status (.json (.notArray lengthIsZero)))).page.state =
        { pg.state with allProducts := .notArray lengthIsZero } ∧
      (fetchProducts pg
        (.response status (.json (.notArray lengthIsZero)))).page.state.selectedCategory =
        pg.state.selectedCategory ∧
      (fetchProducts pg (.response status (.json (.notArray lengthIsZero)))).thrown = none ∧
      ∃ cause,
        (fetchProducts pg
          (.response status (.json (.notArray lengthIsZero)))).page.productListEl =
          .errorMessage cause) := by
  constructor
  · intro r hfail
    have hmain : (fetchProducts pg r).page.state = pg.state ∧
        (fetchProducts pg r).thrown = none ∧
        ∃ cause, (fetchProducts pg r).page.productListEl = .errorMessage cause := by
      cases r with
      | fetchRejects => exact ⟨rfl, rfl, _, rfl⟩
      | response status body =>
        by_cases hok : 200 ≤ status ∧ status ≤ 299
        · cases body with
          | notJson =>
            have hrun : fetchProducts pg (.response status .notJson) =
                fetchProductsCatch
                  { pg with requests := pg.requests ++ [.getProducts pg.state.cart] }
                  (.engineError "SyntaxError") := by
              simp only [fetchProducts, hok, and_self, not_true_eq_false, if_false]
            rw [hrun]
            exact ⟨rfl, rfl, _, rfl⟩
          | json value =>
            simp [failsBeforeStore, hok] at hfail
        · have hrun : fetchProducts pg (.response status body) =
              fetchProductsCatch
                { pg with requests := pg.requests ++ [.getProducts pg.state.cart] }
                (.scriptError
                  ("API returned status " ++ toString status ++ ". Check DB connection.")) := by
            simp only [fetchProducts, hok, not_false_eq_true, if_true]
          rw [hrun]
          exact ⟨rfl, rfl, _, rfl⟩
    obtain ⟨hstate, hthrown, herror⟩ := hmain
    exact ⟨hstate, by rw [hstate], by rw [hstate], hthrown, herror⟩
  · intro status lengthIsZero hlow hhigh
    have hrun : fetchProducts pg (.response status (.json (.notArray lengthIsZero))) =
        fetchProductsCatch
          { pg with
            state := { pg.state with allProducts := .notArray lengthIsZero },
            categoryFilterEl := [],
            requests := pg.requests ++ [.getProducts pg.state.cart] }
          (.engineError "TypeError") := by
      simp only [fetchProducts, hlow, hhigh, and_self, not_true_eq_false, if_false,
        renderCategoryFilter]
    rw [hrun]
    exact ⟨rfl, rfl, rfl, _, rfl⟩

/-- Instance of amended C9: a refresh answered with status 500, and one answered
with status 200 and a JSON object, on a page with a loaded catalog. -/
theorem fetchProducts_failure_keeps_state_witness :
    failsBeforeStore (.response 500 (.json (.array [])) : CatalogResponse Decimal) = true ∧
    ((fetchProducts shopPage (.response 500 (.json (.array [])))).page.state = shopPage.state ∧
      (fetchProducts shopPage (.response 500 (.json (.array [])))).page.state.allProducts =
        shopPage.state.allProducts ∧
      (fetchProducts shopPage (.response 500 (.json (.array [])))).page.state.selectedCategory =
        shopPage.state.selectedCategory ∧
      (fetchProducts shopPage (.response 500 (.json (.array [])))).thrown = none ∧
      ∃ cause, (fetchProducts shopPage (.response 500 (.json (.array [])))).page.productListEl =
        .errorMessage cause) ∧
    (fetchProducts shopPage (.response 500 (.json (.array [])))).page.productListEl =
      .errorMessage (.scriptError "API returned status 500. Check DB connection.") ∧
    (fetchProducts shopPage .fetchRejects).page.state.allProducts =
      .array [penProduct, inkProduct] ∧
    ((fetchProducts shopPage (.response 200 (.json (.notArray false)))).page.state =
        { shopPage.state with allProducts := .notArray false } ∧
      (fetchProducts shopPage
        (.response 200 (.json (.notArray false)))).page.state.selectedCategory =
        shopPage.state.selectedCategory ∧
      (fetchProducts shopPage (.response 200 (.json (.notArray false)))).thrown = none ∧
      ∃ cause,
        (fetchProducts shopPage (.response 200 (.json (.notArray false)))).page.productListEl =
          .errorMessage cause) :=
  ⟨by decide,
    (fetchProducts_failure_keeps_state shopPage).1 (.response 500 (.json (.array [])))
      (by decide),
    by decide, by decide,
    (fetchProducts_failure_keeps_state shopPage).2 200 false (by decide) (by decide)⟩

end Storefront
